import Mathlib

/-!
Verification development for the hamid-bot Telegram CRM front-end.

Shallow embedding conventions:
* Python strings are modelled as lists of characters (`PyStr`).
* Handlers are pure functions from their inputs, the relevant conversation
  state and an abstract description of the external world (backend HTTP
  outcomes, Telegram API outcomes) to a record of the reply they render,
  the outbound calls they make and the state they leave behind.
* Each user-facing message template of the source is one constructor of an
  inductive `Reply` type; two branches of the source that show the same
  literal string map to the same constructor.
-/

/-- Python strings are modelled as lists of characters. -/
abbrev PyStr := List Char

/-- ASCII digit test, the character class `[0-9]` of the regexes in the source. -/
def isAsciiDigit (c : Char) : Bool :=
  decide ('0' ≤ c) && decide (c ≤ '9')

/-- One character of Python `str.isdigit`: ASCII digits plus the Unicode
decimal-digit ranges relevant to this bot's locale (Arabic-Indic U+0660-0669
and Extended Arabic-Indic U+06F0-06F9). -/
def pyIsDigitChar (c : Char) : Bool :=
  isAsciiDigit c
    || (decide ('٠' ≤ c) && decide (c ≤ '٩'))
    || (decide ('۰' ≤ c) && decide (c ≤ '۹'))

/-- Python `str.isdigit`: nonempty and every character a decimal digit. -/
def py_isdigit (s : PyStr) : Bool :=
  !s.isEmpty && s.all pyIsDigitChar

/-- Whitespace characters removed by Python `str.strip()`. -/
def pyIsSpace (c : Char) : Bool :=
  c = ' ' || c = '\t' || c = '\n' || c = '\r' || c = '\u000b' || c = '\u000c'

/-- Python `str.strip()`: drop leading and trailing whitespace. -/
def py_strip (s : PyStr) : PyStr :=
  ((s.dropWhile pyIsSpace).reverse.dropWhile pyIsSpace).reverse

/-- Python `str.startswith`. -/
def beginsWith : PyStr → PyStr → Bool
  | _, [] => true
  | [], _ :: _ => false
  | c :: cs, p :: ps => (c == p) && beginsWith cs ps

/-! ## Role configuration and menus

`config_template.py` ships `MANAGER_IDS` / `SELLER_IDS`; handlers test
membership with Python `in`.  Each inline-keyboard button of the source is
one constructor (source text and `callback_data` noted alongside). -/

/-- The role lists loaded from `config.py` (`MANAGER_IDS`, `SELLER_IDS`). -/
structure Config where
  manager_ids : List Int
  seller_ids : List Int
deriving DecidableEq

/-- The shipped `config_template.py` values: the same placeholder id
`123456789` appears in both `MANAGER_IDS` and `SELLER_IDS`. -/
def config_template : Config :=
  ⟨[123456789], [123456789]⟩

/-- Inline-keyboard buttons of the source, one constructor per distinct
(text, callback_data) literal pair. -/
inductive Button
  /-- manager menu: "🆕 ایجاد Lead" / create_lead_wizard -/
  | create_lead_wizard
  /-- manager menu: "📊 Import Excel" / import_excel -/
  | import_excel
  /-- manager menu: "📋 مدیریت Leads" / manage_leads -/
  | manage_leads
  /-- manager menu: "📊 گزارش‌ها" / view_reports -/
  | view_reports
  /-- manager menu: "💰 ثبت پرداخت" / record_payment -/
  | record_payment
  /-- manager and seller menus: "🔔 یادآورها" / add_reminder -/
  | add_reminder
  /-- seller menu: "📋 Leads من" / my_leads -/
  | my_leads
  /-- seller menu: "📊 گزارش من" / my_reports -/
  | my_reports
  /-- seller menu: "✅ وظایف" / my_tasks -/
  | my_tasks
  /-- fallback placeholder: "غیرمجاز" / ignore -/
  | unauthorized_ignore
  /-- seller_main navigate_home: "🏢 پروژه‌های من" / my_projects -/
  | my_projects
  /-- seller_main navigate_home: "📊 گزارش‌ها" / reports -/
  | reports_button
  /-- seller_main navigate_home: "🔔 یادآوری‌ها" / reminders -/
  | reminders_button
  /-- seller_main navigate_home: " پروفایل" / profile -/
  | profile_button
deriving DecidableEq

/-- `keyboards/main_menu.py::get_main_menu_keyboard`: rows of buttons chosen
by role, manager membership tested first, with the `"غیرمجاز"` placeholder
row as the fallback for unknown users. -/
def get_main_menu_keyboard (cfg : Config) (user_id : Int) : List (List Button) :=
  if user_id ∈ cfg.manager_ids then
    [[.create_lead_wizard, .import_excel],
     [.manage_leads, .view_reports],
     [.record_payment, .add_reminder]]
  else if user_id ∈ cfg.seller_ids then
    [[.my_leads, .my_reports],
     [.my_tasks, .add_reminder]]
  else
    [[.unauthorized_ignore]]

/-- User roles as named in `handlers/common.py` ("مدیر" / "فروشنده"). -/
inductive Role
  | manager
  | seller
deriving DecidableEq

/-- Observable behaviour of `handlers/common.py::cmd_start`. -/
inductive StartAction
  /-- the "❌ شما مجاز به استفاده از این ربات داخلی نیستید." refusal, no menu -/
  | unauthorizedRefusal
  /-- greeting with the role name and the main-menu keyboard -/
  | greetMenu (role : Role) (keyboard : List (List Button))
deriving DecidableEq

/-- `handlers/common.py::cmd_start` (the `/start` handler; `common.router`
is registered first, so it wins the dispatch for `/start`): manager
membership is tested before seller membership, and users in neither list
get the refusal message without any menu. -/
def cmd_start (cfg : Config) (user_id : Int) : StartAction :=
  if user_id ∈ cfg.manager_ids then
    .greetMenu .manager (get_main_menu_keyboard cfg user_id)
  else if user_id ∈ cfg.seller_ids then
    .greetMenu .seller (get_main_menu_keyboard cfg user_id)
  else
    .unauthorizedRefusal

/-- `handlers/common.py::navigate_home` (callbacks `nav_home` / `nav_back`):
edits the message to "🏠 منو اصلی (role)" with the main-menu keyboard; the
role label falls back to "فروشنده" for anyone not in the manager list. -/
def common_navigate_home (cfg : Config) (user_id : Int) : Role × List (List Button) :=
  (if user_id ∈ cfg.manager_ids then Role.manager else Role.seller,
   get_main_menu_keyboard cfg user_id)

/-- `handlers/seller_main.py::navigate_home` (callback `nav_home`): clears
state and renders one fixed four-row menu, identical for every user id.
(It is shadowed at dispatch by `common.navigate_home`, whose router is
registered first.) -/
def seller_main_navigate_home : List (List Button) :=
  [[.my_projects], [.reports_button], [.reminders_button], [.profile_button]]

/-! ## Authentication flow (`handlers/auth.py`)

The three backend wrappers (`send_telegram_id_to_api`, `send_phone_to_api`,
`verify_code_with_api`) share one result shape: HTTP 200 yields
`{"success": True, "data": ..., "status_code": 200}`, any other status yields
`{"success": False, "error": "API returned status N", "status_code": N}`, and
an exception yields `{"success": False, "error": str(e), "status_code": None}`. -/

/-- The fields of the backend's JSON payload that the handlers read
(`is_logged_in`, `user_info.name`, `user_info.phone`); `none` means the key
is absent so the handler falls back to its Persian default. -/
structure BackendData where
  is_logged_in : Bool
  user_name : Option PyStr
  user_phone : Option PyStr
deriving DecidableEq

/-- Outcome of one `httpx` POST to the backend: a status code with a JSON
body, or a raised exception (timeout, network failure, ...). -/
inductive HttpOutcome
  | status (code : Nat) (data : BackendData)
  | exn
deriving DecidableEq

/-- The dictionary the three auth API wrappers return. -/
structure ApiR where
  success : Bool
  data : Option BackendData
  status_code : Option Nat
deriving DecidableEq

/-- Shared body of the auth API wrappers: 200 is success, every other
status or an exception is failure. -/
def http_post_result : HttpOutcome → ApiR
  | .status 200 d => ⟨true, some d, some 200⟩
  | .status c _ => ⟨false, none, some c⟩
  | .exn => ⟨false, none, none⟩

/-- `auth.py::send_phone_to_api` (POST `/auth/send-sms`), as a function of
the backend outcome. -/
def send_phone_to_api (o : HttpOutcome) : ApiR := http_post_result o

/-- `auth.py::verify_code_with_api` (POST `/auth/verify-code`), as a
function of the backend outcome. -/
def verify_code_with_api (o : HttpOutcome) : ApiR := http_post_result o

/-- `auth.py::validate_phone_number`: Python
`re.match(r'^\+98[0-9]{10}$', phone)` — a `+98` prefix followed by exactly
ten ASCII digits. -/
def validate_phone_number (phone : PyStr) : Bool :=
  match phone with
  | '+' :: '9' :: '8' :: rest => rest.length == 10 && rest.all isAsciiDigit
  | _ => false

/-- `auth.py::handle_contact_shared`'s normalization of a shared contact's
phone number: keep a `+98` prefix, turn a leading `0` into `+98`, prepend
`+` to a leading `98`, otherwise prepend `+98`. -/
def normalize_contact_phone (phone : PyStr) : PyStr :=
  if beginsWith phone ['+', '9', '8'] then phone
  else if beginsWith phone ['0'] then ['+', '9', '8'] ++ phone.drop 1
  else if beginsWith phone ['9', '8'] then '+' :: phone
  else ['+', '9', '8'] ++ phone

/-- The aiogram FSM states declared in `auth.py::AuthStates`. -/
inductive AuthSt
  | waiting_for_phone
  | waiting_for_code
deriving DecidableEq

/-- Per-chat conversation state: the FSM state plus the `phone` entry of the
FSM data dictionary (the only key the auth handlers store). -/
structure ConvState where
  fsm : Option AuthSt
  phone : Option PyStr
deriving DecidableEq

/-- The fresh / cleared conversation state (`state.clear()` result and the
state of a chat that never entered the flow). -/
def ConvState.initial : ConvState := ⟨none, none⟩

/-- User-facing message templates of `auth.py`, one constructor per distinct
string literal. -/
inductive Reply
  /-- "❌ فرمت شماره تلفن صحیح نیست! ..." (bad phone format re-prompt) -/
  | phone_format_error
  /-- "📱 کد تایید برای شماره {phone} ارسال شد. ..." (code sent; shared by
  `handle_phone_input` and `handle_contact_shared`) -/
  | code_sent (phone : PyStr)
  /-- "❌ خطا در ارسال کد تایید. لطفاً دوباره تلاش کنید." (send-sms failure,
  one message for every non-200 status and every exception) -/
  | sms_send_error
  /-- "❌ خطا در دریافت شماره تلفن." (missing contact payload) -/
  | contact_receive_error
  /-- "❌ کد تایید باید 6 رقم باشد. لطفاً دوباره وارد کنید:" (local code
  format rejection) -/
  | code_length_error
  /-- "❌ خطا در دریافت اطلاعات. لطفاً دوباره تلاش کنید." (phone missing from
  FSM data) -/
  | state_data_error
  /-- "✅ ورود موفقیت‌آمیز! خوش آمدید {name}! ..." (verified; `none` means the
  backend sent no name and the "کاربر" default is used) -/
  | login_success (name : Option PyStr)
  /-- "❌ کد تایید نامعتبر است. لطفاً دوباره وارد کنید:" (verify failure, one
  message for every non-200 status and every exception) -/
  | invalid_code_error
deriving DecidableEq

/-- Outbound backend HTTP calls made by the auth handlers. -/
inductive BackendCall
  | send_sms (telegram_id : Int) (phone : PyStr)
  | verify_code (telegram_id : Int) (phone : PyStr) (code : PyStr)
deriving DecidableEq

/-- Everything an auth handler invocation does: the reply it renders, the
backend calls it issues, the conversation state it leaves, and the main-menu
keyboard it attaches (when any). -/
structure HandlerOut where
  reply : Reply
  calls : List BackendCall
  state : ConvState
  menu : Option (List (List Button))
deriving DecidableEq

/-- `auth.py::handle_phone_input` (state `waiting_for_phone`): strip the
text, reject a phone that fails `validate_phone_number` without any call,
otherwise POST it to `/auth/send-sms`; on success advance to
`waiting_for_code` storing the phone, on failure reply with the generic
error and leave the state untouched. -/
def handle_phone_input (chat_id : Int) (text : PyStr) (st : ConvState)
    (backend : HttpOutcome) : HandlerOut :=
  let phone := py_strip text
  if validate_phone_number phone = false then
    ⟨.phone_format_error, [], st, none⟩
  else
    let api := send_phone_to_api backend
    if api.success then
      ⟨.code_sent phone, [.send_sms chat_id phone],
       ⟨some .waiting_for_code, some phone⟩, none⟩
    else
      ⟨.sms_send_error, [.send_sms chat_id phone], st, none⟩

/-- `auth.py::handle_contact_shared` (filter `F.contact`): normalize the
shared contact's number and POST it to `/auth/send-sms`; on success advance
to `waiting_for_code` storing the normalized phone, on failure reply with
the generic error and leave the state untouched. -/
def handle_contact_shared (chat_id : Int) (contact : Option PyStr)
    (st : ConvState) (backend : HttpOutcome) : HandlerOut :=
  match contact with
  | none => ⟨.contact_receive_error, [], st, none⟩
  | some raw =>
    let phone := normalize_contact_phone raw
    let api := send_phone_to_api backend
    if api.success then
      ⟨.code_sent phone, [.send_sms chat_id phone],
       ⟨some .waiting_for_code, some phone⟩, none⟩
    else
      ⟨.sms_send_error, [.send_sms chat_id phone], st, none⟩

/-- `auth.py::handle_code_input` (state `waiting_for_code`): strip the text;
anything that is not a 6-character digit string is re-prompted with no call;
with the phone missing from state, error out and clear; otherwise POST to
`/auth/verify-code` — success clears the state and renders the main menu,
failure re-prompts in place leaving state and stored phone untouched. -/
def handle_code_input (cfg : Config) (chat_id : Int) (text : PyStr)
    (st : ConvState) (backend : HttpOutcome) : HandlerOut :=
  let code := py_strip text
  if (py_isdigit code && code.length == 6) = false then
    ⟨.code_length_error, [], st, none⟩
  else
    match st.phone with
    | none => ⟨.state_data_error, [], ConvState.initial, none⟩
    | some phone =>
      let api := verify_code_with_api backend
      if api.success then
        ⟨.login_success (api.data.bind (fun d => d.user_name)),
         [.verify_code chat_id phone code], ConvState.initial,
         some (get_main_menu_keyboard cfg chat_id)⟩
      else
        ⟨.invalid_code_error, [.verify_code chat_id phone code], st, none⟩

/-! ## Webhook notification service (`main.py`)

`send_notification` wraps one `bot.send_message` call; each exception class
it catches becomes a failure result, so the function is total over the
modelled outcomes (it never raises). -/

/-- Outcome of one `bot.send_message` to a chat. -/
inductive SendOutcome
  | ok (message_id : Nat)
  | bad_request (detail : PyStr)
  | forbidden (detail : PyStr)
  | exn (detail : PyStr)
deriving DecidableEq

/-- The dictionary `main.py::send_notification` returns: `success` is true
exactly on a delivered message, and every caught exception class maps to a
`success: False` record. -/
structure SendResult where
  success : Bool
  message_id : Option Nat
deriving DecidableEq

/-- `main.py::send_notification`: total over all modelled outcomes — the
`TelegramBadRequest`, `TelegramForbiddenError` and generic `Exception`
handlers each return a failure dictionary instead of raising. -/
def send_notification (chat_id : Int) (message : PyStr) (o : SendOutcome) : SendResult :=
  match o with
  | .ok mid => ⟨true, some mid⟩
  | .bad_request _ => ⟨false, none⟩
  | .forbidden _ => ⟨false, none⟩
  | .exn _ => ⟨false, none⟩

/-- Whether a send outcome makes `send_notification` report failure. -/
def outcome_fails : SendOutcome → Bool
  | .ok _ => false
  | _ => true

/-- The `for chat_id in request.chat_ids` loop of
`main.py::webhook_bulk_notify`: the i-th element of `chat_ids` is sent with
the i-th outcome of the environment, and each result is appended as
`{"chat_id": ..., "result": ...}`. -/
def bulk_send_loop (message : PyStr) (env : Nat → SendOutcome) : Nat → List Int → List (Int × SendResult)
  | _, [] => []
  | i, cid :: rest =>
    (cid, send_notification cid message (env i)) :: bulk_send_loop message env (i + 1) rest

/-- Number of failing sends among outcomes `env i, ..., env (i + n - 1)` —
the `M` of the bulk-notify claim. -/
def fail_count_from (env : Nat → SendOutcome) : Nat → Nat → Nat
  | _, 0 => 0
  | i, n + 1 => (if outcome_fails (env i) then 1 else 0) + fail_count_from env (i + 1) n

/-- The JSON body `main.py::webhook_bulk_notify` returns. -/
structure BulkResponse where
  success : Bool
  total_sent : Nat
  total_requested : Nat
  results : List (Int × SendResult)
deriving DecidableEq

/-- `main.py::webhook_bulk_notify`: send to every chat id in order, collect
per-item results, count successes, and answer HTTP 200 with the aggregate
body (the success counter of the source is incremented per success inside
the loop; it equals the filter count used here). -/
def webhook_bulk_notify (chat_ids : List Int) (message : PyStr)
    (env : Nat → SendOutcome) : Nat × BulkResponse :=
  let results := bulk_send_loop message env 0 chat_ids
  let success_count := (results.filter (fun r => r.2.success)).length
  (200, ⟨true, success_count, chat_ids.length, results⟩)

/-! ## Receipt endpoint (`main.py::create_receipt` and helpers)

The date check is Python `datetime.strptime(date, "%Y-%m-%d")` followed by
construction of the date object; CPython's `_strptime` compiles `%Y` to four
digits, `%m` to `1[0-2]|0[1-9]|[1-9]`, `%d` to `3[01]|[12]\d|0[1-9]|[1-9]`,
requires the whole string to be consumed, and the resulting calendar date
must exist (Gregorian month lengths, year at least 1). -/

/-- Numeric value of an ASCII digit character. -/
def digitVal (c : Char) : Nat := c.toNat - '0'.toNat

/-- Value of a two-digit group. -/
def twoDigits (a b : Char) : Nat := 10 * digitVal a + digitVal b

/-- The `%m-` part of the format: a month of one or two digits in 1..12
followed by the literal dash. -/
def parse_month_dash : PyStr → Option (Nat × PyStr)
  | m1 :: m2 :: '-' :: rest =>
    if isAsciiDigit m1 && isAsciiDigit m2
        && decide (1 ≤ twoDigits m1 m2) && decide (twoDigits m1 m2 ≤ 12) then
      some (twoDigits m1 m2, rest)
    else none
  | m1 :: '-' :: rest =>
    if isAsciiDigit m1 && decide (1 ≤ digitVal m1) then some (digitVal m1, rest)
    else none
  | _ => none

/-- The trailing `%d` part: a day of one or two digits in 1..31, ending the
string (strptime rejects unconverted trailing data). -/
def parse_day_end : PyStr → Option Nat
  | [d1] =>
    if isAsciiDigit d1 && decide (1 ≤ digitVal d1) then some (digitVal d1) else none
  | [d1, d2] =>
    if isAsciiDigit d1 && isAsciiDigit d2
        && decide (1 ≤ twoDigits d1 d2) && decide (twoDigits d1 d2 ≤ 31) then
      some (twoDigits d1 d2)
    else none
  | _ => none

/-- Gregorian leap year, as `datetime` implements it. -/
def is_leap (y : Nat) : Bool :=
  (decide (y % 4 = 0) && decide (y % 100 ≠ 0)) || decide (y % 400 = 0)

/-- Days in a month of a given year. -/
def days_in_month (y m : Nat) : Nat :=
  if m = 2 then (if is_leap y then 29 else 28)
  else if m = 4 ∨ m = 6 ∨ m = 9 ∨ m = 11 then 30
  else 31

/-- Whether `datetime.strptime(s, "%Y-%m-%d")` succeeds: four year digits, a
month and a day in range, nothing left over, and an existing calendar date
(`datetime` requires year ≥ 1). -/
def py_strptime_Ymd_ok (s : PyStr) : Bool :=
  match s with
  | y1 :: y2 :: y3 :: y4 :: '-' :: rest =>
    if isAsciiDigit y1 && isAsciiDigit y2 && isAsciiDigit y3 && isAsciiDigit y4 then
      let y := 1000 * digitVal y1 + 100 * digitVal y2 + 10 * digitVal y3 + digitVal y4
      match parse_month_dash rest with
      | some (m, rest2) =>
        match parse_day_end rest2 with
        | some d => decide (1 ≤ y) && decide (d ≤ days_in_month y m)
        | none => false
      | none => false
    else false
  | _ => false

/-- The fields of `main.py::ReceiptRequest` (pydantic model); prices are
floats in the source, modelled as rationals, with the model constraints
`price_deal > 0` and `price_deposit ≥ 0` carried as hypotheses where
needed. -/
structure ReceiptReq where
  price_deal : ℚ
  price_deposit : ℚ
  date : PyStr
  image : Option PyStr
  customer_name : PyStr
  customer_phone : PyStr
  customer_province : Option PyStr
  customer_city : Option PyStr
  customer_id : Option PyStr
  assignee : PyStr
  group_id : Int
  topic_id : Option Int
  topic_name : Option PyStr
deriving DecidableEq

/-- Telegram chat types the handlers distinguish. -/
inductive ChatType
  | group
  | supergroup
  | channel
  | privateChat
deriving DecidableEq

/-- The chat attributes `fetch_group_metadata` reads. -/
structure ChatInfo where
  chatType : ChatType
  is_forum : Bool
deriving DecidableEq

/-- Telegram API calls the receipt path can make, in order of issue. -/
inductive TelegramCall
  | get_chat (gid : Int)
  | get_chat_administrators (gid : Int)
  | get_chat_member_count (gid : Int)
  | topic_discovery (gid : Int)
  | send_message (gid : Int) (thread : Option Int)
  | delete_message (gid : Int)
  | send_photo (gid : Int) (thread : Option Int)
deriving DecidableEq

/-- Outcome of one Telegram send attempt in the receipt path. -/
inductive TgOut
  | ok (message_id : Nat)
  | bad_request (thread_not_found : Bool)
  | forbidden
  | exn
deriving DecidableEq

/-- The external-world outcomes the receipt endpoint can observe. -/
structure ReceiptEnv where
  /-- `bot.get_chat` result inside `fetch_group_metadata`; `none` models the
  exception path that makes `fetch_group_metadata` raise `HTTPException`
  (caught inside `create_receipt`). -/
  chat : Option ChatInfo
  /-- whether the probe send of `check_topic_exists` succeeds -/
  topic_exists : Bool
  /-- outcome of `bot.send_photo` for the receipt image -/
  photo_send : TgOut
  /-- outcome of `bot.send_message` for the receipt text -/
  text_send : TgOut
  /-- outcome of the retry without topic after "message thread not found" -/
  fallback_send : TgOut
deriving DecidableEq

/-- `main.py::fetch_group_metadata`'s topic flag: an `is_forum` chat has
topics; otherwise the code falls back to assuming topics for supergroups;
channels and private chats never have topics. -/
def has_topics_enabled (c : ChatInfo) : Bool :=
  match c.chatType with
  | .group => c.is_forum
  | .supergroup => true
  | _ => false

/-- `main.py::fetch_group_metadata`, reduced to what `create_receipt`
consumes: the chat info on success (`none` when `bot.get_chat` raised and
the function turned it into an `HTTPException`), plus the Telegram calls it
makes — `get_chat`, then administrators and member count (their own
failures are swallowed), then topic discovery when topics are enabled
(the whole Telethon probe sequence abstracted as one `topic_discovery`
marker). -/
def fetch_group_metadata (env : ReceiptEnv) (gid : Int) :
    Option ChatInfo × List TelegramCall :=
  match env.chat with
  | none => (none, [.get_chat gid])
  | some c =>
    let t := [TelegramCall.get_chat gid, .get_chat_administrators gid,
              .get_chat_member_count gid]
    (some c, if has_topics_enabled c then t ++ [.topic_discovery gid] else t)

/-- `main.py::check_topic_exists`: send a probe `"."` into the thread; on
success delete it (deletion failures ignored) and report true, on any
exception report false. -/
def check_topic_exists (env : ReceiptEnv) (gid tid : Int) : Bool × List TelegramCall :=
  if env.topic_exists then
    (true, [.send_message gid (some tid), .delete_message gid])
  else
    (false, [.send_message gid (some tid)])

/-- Result of `main.py::send_receipt_to_group`. -/
inductive SendReceiptRes
  | sent (message_id : Nat) (topic_id : Option Int) (fallback_used : Bool)
  | failed
deriving DecidableEq

/-- `receipt_data.image and receipt_data.image.startswith('http')`. -/
def has_http_image (req : ReceiptReq) : Bool :=
  match req.image with
  | some s => beginsWith s ['h', 't', 't', 'p']
  | none => false

/-- The text-send tail of `send_receipt_to_group`: the outer
`TelegramBadRequest` handler retries without a topic only when the failure
is "message thread not found" and a topic id was still attached. -/
def receipt_text_send (env : ReceiptEnv) (gid : Int) (tid : Option Int)
    (tr : List TelegramCall) : SendReceiptRes × List TelegramCall :=
  match env.text_send with
  | .ok mid => (.sent mid tid false, tr ++ [.send_message gid tid])
  | .bad_request tnf =>
    if tnf && tid.isSome then
      match env.fallback_send with
      | .ok mid => (.sent mid none true, tr ++ [.send_message gid tid, .send_message gid none])
      | _ => (.failed, tr ++ [.send_message gid tid, .send_message gid none])
    else (.failed, tr ++ [.send_message gid tid])
  | .forbidden => (.failed, tr ++ [.send_message gid tid])
  | .exn => (.failed, tr ++ [.send_message gid tid])

/-- `main.py::send_receipt_to_group`: probe the topic first (dropping the
topic id if the probe fails), then send the receipt as a photo with caption
when an http image is attached — any photo failure falls back to a plain
text send — or as a text message directly. -/
def send_receipt_to_group (env : ReceiptEnv) (gid : Int) (topic_id : Option Int)
    (req : ReceiptReq) : SendReceiptRes × List TelegramCall :=
  let probe :=
    match topic_id with
    | none => ((none : Option Int), ([] : List TelegramCall))
    | some t =>
      let (ex, tr) := check_topic_exists env gid t
      ((if ex then some t else none), tr)
  let tid := probe.1
  let t0 := probe.2
  if has_http_image req then
    match env.photo_send with
    | .ok mid => (.sent mid tid false, t0 ++ [.send_photo gid tid])
    | _ => receipt_text_send env gid tid (t0 ++ [.send_photo gid tid])
  else
    receipt_text_send env gid tid t0

/-- Error details of the receipt endpoint's HTTP responses. -/
inductive RDetail
  | invalid_date
  | deposit_exceeds_deal
  | send_failed
deriving DecidableEq

/-- HTTP response of the receipt endpoint. -/
inductive HttpResp
  | ok (message_id : Nat)
  | err (code : Nat) (detail : RDetail)
deriving DecidableEq

/-- Status code of a receipt-endpoint response. -/
def HttpResp.statusCode : HttpResp → Nat
  | .ok _ => 200
  | .err c _ => c

/-- `main.py::create_receipt` (`POST /api/receipts`): validate the date
format, then reject `price_deposit > price_deal` with HTTP 400, and only
after both checks fetch group metadata (failures tolerated), null the topic
id for channels, and send the receipt; a failed send maps to HTTP 400. -/
def create_receipt (env : ReceiptEnv) (req : ReceiptReq) :
    HttpResp × List TelegramCall :=
  if py_strptime_Ymd_ok req.date = false then
    (.err 400 .invalid_date, [])
  else if req.price_deposit > req.price_deal then
    (.err 400 .deposit_exceeds_deal, [])
  else
    let fm := fetch_group_metadata env req.group_id
    let tid : Option Int :=
      match fm.1 with
      | some c => if c.chatType = ChatType.channel then none else req.topic_id
      | none => req.topic_id
    let sr := send_receipt_to_group env req.group_id tid req
    match sr.1 with
    | .sent mid _ _ => (.ok mid, fm.2 ++ sr.2)
    | .failed => (.err 400 .send_failed, fm.2 ++ sr.2)

/-! ## Topic discovery (`main.py`)

Three routines: the Telethon scanner over message history, the raw
Telegram-API prober, and the aiogram prober; each later one is the previous
one's fallback.  Lists entries are `{"topic_id": ..., "name": ...}`
dictionaries; only the id and the provenance of the name matter here. -/

/-- The name attached to a discovered topic: a title taken from the chat, the
`"Topic {id}"` default, or the `"General"` default. -/
inductive TName
  | given (title : PyStr)
  | default_for (id : Int)
  | general
deriving DecidableEq

/-- One entry of a discovered-topics list. -/
structure Topic where
  topic_id : Int
  name : TName
deriving DecidableEq

/-- One message seen by the Telethon scanner: a topic-creation action
message (its id is the topic id), a message posted inside a topic (its
`reply_to_msg_id` is the topic id; `creation_title` is the title when the
lookup of the creation message succeeds), or anything else. -/
inductive TEvent
  | topic_create (msg_id : Int) (title : PyStr)
  | topic_reply (reply_id : Int) (creation_title : Option PyStr)
  | other
deriving DecidableEq

/-- One iteration of the Telethon `async for message` loop: append a topic
for an unseen id and record it in `seen_topic_ids`. -/
def telethon_step (acc : List Topic × List Int) (e : TEvent) : List Topic × List Int :=
  match e with
  | .topic_create id title =>
    if id ∈ acc.2 then acc
    else (acc.1 ++ [⟨id, .given title⟩], acc.2 ++ [id])
  | .topic_reply id t =>
    if id ∈ acc.2 then acc
    else
      (acc.1 ++ [⟨id, match t with | some s => TName.given s | none => TName.default_for id⟩],
       acc.2 ++ [id])
  | .other => acc

/-- The "always add General" block shared by all three routines: insert a
topic 1 entry at the front unless one is already present. -/
def add_general_topic (gname : TName) (ts : List Topic) : List Topic :=
  if ts.any (fun t => t.topic_id == 1) then ts else ⟨1, gname⟩ :: ts

/-- The final deduplication pass of the Telethon routine: keep the first
entry for each topic id. -/
def dedup_topics : List Topic → List Int → List Topic
  | [], _ => []
  | t :: rest, seen =>
    if t.topic_id ∈ seen then dedup_topics rest seen
    else t :: dedup_topics rest (t.topic_id :: seen)

/-- External-world outcomes of one run of the Telethon routine. -/
structure TelethonEnv where
  /-- a failure before the inner `try` (import, client start, bot-account
  check): propagates to the outer handler, which falls back to the
  Telegram-API routine -/
  setup_fail : Bool
  /-- an exception inside the inner `try` (entity fetch, message iteration):
  caught by the inner handlers, which skip the General-topic insertion -/
  inner_abort : Bool
  /-- the messages processed before the run ended (all of them when no
  exception aborted the iteration) -/
  events : List TEvent
  /-- title of message id 1 when its lookup finds a creation action -/
  general_title : Option PyStr
deriving DecidableEq

/-- `main.py::discover_group_topics_with_telethon`: scan messages for topic
ids, add the General topic only when the scan completed without exception
(the insertion block sits at the end of the inner `try`), then deduplicate;
failures before the inner `try` fall back to the Telegram-API routine. -/
def discover_group_topics_with_telethon (env : TelethonEnv)
    (fallback : List Topic) : List Topic :=
  if env.setup_fail then fallback
  else
    let ts := (env.events.foldl telethon_step ([], [])).1
    let ts' :=
      if env.inner_abort then ts
      else
        add_general_topic
          (match env.general_title with | some s => TName.given s | none => TName.general) ts
    dedup_topics ts' []

/-- Outcome of probing one candidate topic id with the raw Telegram API. -/
inductive ApiProbe
  /-- the test send returned HTTP 200 with `ok: true`; `extracted` is the
  topic name when one was found in the response -/
  | ok (extracted : Option PyStr)
  /-- non-200 or `ok: false`: log and continue -/
  | not_ok
  /-- an exception: stop probing when nothing was found yet and the id is
  past 5, otherwise continue -/
  | exn
deriving DecidableEq

/-- Outcome of probing one candidate topic id with aiogram. -/
inductive AioProbe
  /-- `bot.send_message` succeeded; `thread_name` when thread info had one -/
  | ok (thread_name : Option PyStr)
  /-- `TelegramBadRequest`: stop probing when nothing was found yet and the
  id is past 5 -/
  | bad_request
  /-- any other exception: continue with the next id -/
  | exn
deriving DecidableEq

/-- What the probe loop does with one candidate id. -/
inductive ProbeAct
  | add (name : TName)
  | skip
  | brk

/-- The `for topic_id in common_topic_ids` loop shared (in shape) by the
Telegram-API and aiogram routines: append a topic per successful probe, and
on a breaking outcome stop early when `available_topics` is still empty and
the id is past 5. -/
def topics_probe_loop (act : Int → ProbeAct) : List Int → List Topic → List Topic
  | [], acc => acc
  | id :: rest, acc =>
    match act id with
    | .add nm => topics_probe_loop act rest (acc ++ [⟨id, nm⟩])
    | .skip => topics_probe_loop act rest acc
    | .brk =>
      if acc.isEmpty && decide ((5 : Int) < id) then acc
      else topics_probe_loop act rest acc

/-- `common_topic_ids = [2, ..., 20]` (1 is skipped as always-General). -/
def common_topic_ids : List Int :=
  [2, 3, 4, 5, 6, 7, 8, 9, 10, 11, 12, 13, 14, 15, 16, 17, 18, 19, 20]

/-- Loop action of the Telegram-API prober for one candidate id. -/
def api_probe_act (probe : Int → ApiProbe) (id : Int) : ProbeAct :=
  match probe id with
  | .ok (some nm) => .add (.given nm)
  | .ok none => .add (.default_for id)
  | .not_ok => .skip
  | .exn => .brk

/-- Loop action of the aiogram prober for one candidate id. -/
def aio_probe_act (probe : Int → AioProbe) (id : Int) : ProbeAct :=
  match probe id with
  | .ok (some nm) => .add (.given nm)
  | .ok none => .add (.default_for id)
  | .bad_request => .brk
  | .exn => .skip

/-- External-world outcomes of one run of the Telegram-API routine. -/
structure TgApiEnv where
  /-- an exception outside the per-id `try`: the outer handler falls back to
  the aiogram routine -/
  outer_fail : Bool
  probe : Int → ApiProbe

/-- External-world outcomes of one run of the aiogram routine. -/
structure AiogramEnv where
  /-- an exception outside the per-id `try`: the outer handler returns just
  the General topic -/
  outer_fail : Bool
  probe : Int → AioProbe

/-- `main.py::discover_group_topics_aiogram`: probe ids 2..20, always add
the General topic, and on an outer failure return the single General
entry. -/
def discover_group_topics_aiogram (env : AiogramEnv) : List Topic :=
  if env.outer_fail then [⟨1, .general⟩]
  else add_general_topic .general (topics_probe_loop (aio_probe_act env.probe) common_topic_ids [])

/-- `main.py::discover_group_topics_with_telegram_api`: probe ids 2..20 via
raw API calls, always add the General topic, and on an outer failure fall
back to the aiogram routine. -/
def discover_group_topics_with_telegram_api (env : TgApiEnv)
    (fallback : List Topic) : List Topic :=
  if env.outer_fail then fallback
  else add_general_topic .general (topics_probe_loop (api_probe_act env.probe) common_topic_ids [])

/-! ## Helper lemmas -/

/-- `send_notification` reports success exactly when the outcome is a
delivered message. -/
theorem send_notification_success_eq (c : Int) (m : PyStr) (o : SendOutcome) :
    (send_notification c m o).success = !outcome_fails o := by
  cases o <;> rfl

/-- The bulk loop yields one result per requested chat id. -/
theorem bulk_send_loop_length (message : PyStr) (env : Nat → SendOutcome) :
    ∀ (ids : List Int) (i : Nat), (bulk_send_loop message env i ids).length = ids.length
  | [], _ => rfl
  | _ :: rest, i => by
    simp [bulk_send_loop, bulk_send_loop_length message env rest (i + 1)]

/-- The failing entries of the bulk loop are counted by `fail_count_from`. -/
theorem bulk_send_loop_fail_count (message : PyStr) (env : Nat → SendOutcome) :
    ∀ (ids : List Int) (i : Nat),
      ((bulk_send_loop message env i ids).filter (fun r => !r.2.success)).length
        = fail_count_from env i ids.length
  | [], _ => rfl
  | _ :: rest, i => by
    have ih := bulk_send_loop_fail_count message env rest (i + 1)
    simp only [bulk_send_loop, List.filter_cons, send_notification_success_eq,
      Bool.not_not, List.length_cons, fail_count_from]
    cases h : outcome_fails (env i) <;> simp [h, ih] <;> omega

/-- Successes and failures of the bulk loop partition the request list. -/
theorem bulk_send_loop_success_count (message : PyStr) (env : Nat → SendOutcome) :
    ∀ (ids : List Int) (i : Nat),
      ((bulk_send_loop message env i ids).filter (fun r => r.2.success)).length
        + fail_count_from env i ids.length = ids.length
  | [], _ => rfl
  | _ :: rest, i => by
    have ih := bulk_send_loop_success_count message env rest (i + 1)
    simp only [bulk_send_loop, List.filter_cons, send_notification_success_eq,
      List.length_cons, fail_count_from]
    cases h : outcome_fails (env i) <;> simp [h] <;> omega

/-- The ids collected by the probe loop form a sublist of the accumulator's
ids followed by the candidate ids. -/
theorem topics_probe_loop_sublist (act : Int → ProbeAct) :
    ∀ (ids : List Int) (acc : List Topic),
      ((topics_probe_loop act ids acc).map (fun t => t.topic_id)).Sublist
        (acc.map (fun t => t.topic_id) ++ ids)
  | [], acc => by simp [topics_probe_loop]
  | id :: rest, acc => by
    simp only [topics_probe_loop]
    cases h : act id with
    | add nm =>
      have ih := topics_probe_loop_sublist act rest (acc ++ [⟨id, nm⟩])
      simpa [List.append_assoc] using ih
    | skip =>
      have ih := topics_probe_loop_sublist act rest acc
      exact ih.trans (List.Sublist.append_left (List.sublist_cons_self id rest) _)
    | brk =>
      by_cases hb : acc.isEmpty && decide ((5 : Int) < id)
      · simp only [hb, if_true]
        exact List.sublist_append_left _ _
      · simp only [hb, if_false]
        have ih := topics_probe_loop_sublist act rest acc
        exact ih.trans (List.Sublist.append_left (List.sublist_cons_self id rest) _)

/-- Adding the General entry keeps topic ids pairwise distinct. -/
theorem add_general_topic_nodup (g : TName) (ts : List Topic)
    (h : (ts.map (fun t => t.topic_id)).Nodup) :
    ((add_general_topic g ts).map (fun t => t.topic_id)).Nodup := by
  unfold add_general_topic
  by_cases ha : ts.any (fun t => t.topic_id == 1) = true
  · simpa [ha] using h
  · have h1 : (1 : Int) ∉ ts.map (fun t => t.topic_id) := by
      intro hm
      rcases List.mem_map.mp hm with ⟨t, ht, hid⟩
      exact ha (List.any_eq_true.mpr ⟨t, ht, by simp [hid]⟩)
    simp only [ha, if_false, List.map_cons]
    exact List.nodup_cons.mpr ⟨h1, h⟩

/-- After `add_general_topic` the list always holds a topic 1 entry. -/
theorem add_general_topic_has_one (g : TName) (ts : List Topic) :
    ∃ t ∈ add_general_topic g ts, t.topic_id = 1 := by
  unfold add_general_topic
  by_cases ha : ts.any (fun t => t.topic_id == 1) = true
  · rcases List.any_eq_true.mp ha with ⟨t, ht, h1⟩
    exact ⟨t, by simp [ha, ht], by simpa using h1⟩
  · exact ⟨⟨1, g⟩, by simp [ha], rfl⟩

/-- The deduplication pass yields pairwise distinct ids, none of them in the
already-seen set. -/
theorem dedup_topics_nodup : ∀ (l : List Topic) (seen : List Int),
    ((dedup_topics l seen).map (fun t => t.topic_id)).Nodup ∧
      ∀ a ∈ (dedup_topics l seen).map (fun t => t.topic_id), a ∉ seen
  | [], seen => by simp [dedup_topics]
  | t :: rest, seen => by
    by_cases h : t.topic_id ∈ seen
    · simpa [dedup_topics, h] using dedup_topics_nodup rest seen
    · have ih := dedup_topics_nodup rest (t.topic_id :: seen)
      simp only [dedup_topics, h, if_false, List.map_cons]
      refine ⟨List.nodup_cons.mpr ⟨fun hm => (ih.2 _ hm) (List.mem_cons_self _ _), ih.1⟩, ?_⟩
      intro a ha
      rcases List.mem_cons.mp ha with rfl | hm
      · exact h
      · exact fun hs => (ih.2 a hm) (List.mem_cons_of_mem _ hs)

/-- Deduplication preserves the presence of a topic id not yet seen. -/
theorem dedup_topics_mem : ∀ (l : List Topic) (seen : List Int) (a : Int),
    (∃ t ∈ l, t.topic_id = a) → a ∉ seen →
    ∃ t ∈ dedup_topics l seen, t.topic_id = a
  | [], _, _ => by simp
  | t :: rest, seen, a => by
    intro hex hns
    rcases hex with ⟨u, hu, hua⟩
    by_cases h : t.topic_id ∈ seen
    · rcases List.mem_cons.mp hu with rfl | hmem
      · exact absurd (hua ▸ h) hns
      · have := dedup_topics_mem rest seen a ⟨u, hmem, hua⟩ hns
        simpa [dedup_topics, h] using this
    · rcases List.mem_cons.mp hu with rfl | hmem
      · exact ⟨u, by simp [dedup_topics, h], hua⟩
      · by_cases hat : a = t.topic_id
        · exact ⟨t, by simp [dedup_topics, h], hat.symm⟩
        · have hns' : a ∉ t.topic_id :: seen := by
            intro hx
            rcases List.mem_cons.mp hx with h1 | h2
            · exact hat h1
            · exact hns h2
          rcases dedup_topics_mem rest (t.topic_id :: seen) a ⟨u, hmem, hua⟩ hns' with ⟨v, hv, hva⟩
          exact ⟨v, by simp [dedup_topics, h, List.mem_cons_of_mem, hv], hva⟩

/-! ## Claim theorems -/

/-- Claim C1 (counterexample): for the concrete unauthorized user id 5 under
the shipped template configuration, the `seller_main.navigate_home` entry
point does not render the unauthorized placeholder menu — it renders its
fixed four-row menu — so not every menu-rendering entry point shows the
placeholder for users outside both role lists. -/
theorem seller_nav_home_not_placeholder :
    (5 : Int) ∉ config_template.manager_ids ∧
    (5 : Int) ∉ config_template.seller_ids ∧
    seller_main_navigate_home ≠ [[Button.unauthorized_ignore]] := by
  decide

/-- Claim C1 (amended): for every user id in neither configured list, the
main-menu keyboard builder renders the placeholder row, the `/start` handler
answers the refusal without a menu, and the common-module navigate-home
handler renders the placeholder keyboard; the `seller_main` navigate-home
handler instead renders one fixed role-independent menu (and is shadowed at
dispatch by the common handler, whose router is registered first). -/
theorem main_menu_unknown_role_placeholder (cfg : Config) (user_id : Int)
    (hm : user_id ∉ cfg.manager_ids) (hs : user_id ∉ cfg.seller_ids) :
    get_main_menu_keyboard cfg user_id = [[Button.unauthorized_ignore]] ∧
    cmd_start cfg user_id = StartAction.unauthorizedRefusal ∧
    (common_navigate_home cfg user_id).2 = [[Button.unauthorized_ignore]] ∧
    seller_main_navigate_home
      = [[Button.my_projects], [Button.reports_button],
         [Button.reminders_button], [Button.profile_button]] := by
  simp [get_main_menu_keyboard, cmd_start, common_navigate_home,
    seller_main_navigate_home, hm, hs]

/-- Claim C1 (witness): the amended statement evaluated at the template
configuration and the unauthorized id 5. -/
theorem main_menu_unknown_role_placeholder_witness :
    (5 : Int) ∉ config_template.manager_ids ∧
    (5 : Int) ∉ config_template.seller_ids ∧
    (get_main_menu_keyboard config_template 5 = [[Button.unauthorized_ignore]] ∧
      cmd_start config_template 5 = StartAction.unauthorizedRefusal ∧
      (common_navigate_home config_template 5).2 = [[Button.unauthorized_ignore]] ∧
      seller_main_navigate_home
        = [[Button.my_projects], [Button.reports_button],
           [Button.reminders_button], [Button.profile_button]]) :=
  ⟨by decide, by decide,
    main_menu_unknown_role_placeholder config_template 5 (by decide) (by decide)⟩

/-- The `09XXXXXXXXX`-format phone used as concrete input. -/
def phone09 : PyStr := ['0', '9', '1', '2', '3', '4', '5', '6', '7', '8', '9']

/-- A backend payload with no optional fields. -/
def bd0 : BackendData := ⟨false, none, none⟩

/-- Claim C2 (counterexample): the manual phone-entry handler rejects the
accepted format `09` + nine digits — `validate_phone_number` admits only the
`+98` form — re-prompting locally with no backend call, so the bot's
phone-input handling does not accept every phone given in the three
formats. -/
theorem manual_phone_rejects_local_zero_format :
    validate_phone_number phone09 = false ∧
    handle_phone_input 1 phone09 ConvState.initial (.status 200 bd0)
      = ⟨.phone_format_error, [], ConvState.initial, none⟩ := by
  decide

/-- Claim C2 (amended): for one subscriber number `d` (ten digits starting
with 9), the contact-sharing handler accepts all three formats `+98d`, `0d`,
`98d`, normalizes each to the identical canonical string `+98d`, and sends
exactly that string to the backend; the manual text handler accepts only the
already-canonical `+98d` form (`validate_phone_number`). -/
theorem phone_normalization_canonical (d : PyStr) (h10 : d.length = 10)
    (hdig : d.all isAsciiDigit = true) (h9 : d.head? = some '9')
    (chat_id : Int) (st : ConvState) (backend : HttpOutcome) :
    normalize_contact_phone ('+' :: '9' :: '8' :: d) = '+' :: '9' :: '8' :: d ∧
    normalize_contact_phone ('0' :: d) = '+' :: '9' :: '8' :: d ∧
    normalize_contact_phone ('9' :: '8' :: d) = '+' :: '9' :: '8' :: d ∧
    validate_phone_number ('+' :: '9' :: '8' :: d) = true ∧
    (handle_contact_shared chat_id (some ('+' :: '9' :: '8' :: d)) st backend).calls
      = [.send_sms chat_id ('+' :: '9' :: '8' :: d)] ∧
    (handle_contact_shared chat_id (some ('0' :: d)) st backend).calls
      = [.send_sms chat_id ('+' :: '9' :: '8' :: d)] ∧
    (handle_contact_shared chat_id (some ('9' :: '8' :: d)) st backend).calls
      = [.send_sms chat_id ('+' :: '9' :: '8' :: d)] := by
  refine ⟨?_, ?_, ?_, ?_, ?_, ?_, ?_⟩
  · simp [normalize_contact_phone, beginsWith]
  · simp [normalize_contact_phone, beginsWith]
  · simp [normalize_contact_phone, beginsWith]
  · simp [validate_phone_number, h10, hdig]
  all_goals
    cases hsucc : (send_phone_to_api backend).success <;>
      simp [handle_contact_shared, hsucc, normalize_contact_phone, beginsWith]

/-- Claim C2 (witness): the amended statement evaluated at the subscriber
number 9123456789. -/
theorem phone_normalization_canonical_witness :
    (['9', '1', '2', '3', '4', '5', '6', '7', '8', '9'] : PyStr).length = 10 ∧
    (normalize_contact_phone phone09
        = ['+', '9', '8', '9', '1', '2', '3', '4', '5', '6', '7', '8', '9'] ∧
      (handle_contact_shared 1 (some phone09) ConvState.initial (.status 200 bd0)).calls
        = [.send_sms 1 ['+', '9', '8', '9', '1', '2', '3', '4', '5', '6', '7', '8', '9']]) := by
  have h := phone_normalization_canonical
    ['9', '1', '2', '3', '4', '5', '6', '7', '8', '9'] (by decide) (by decide) (by decide)
    1 ConvState.initial (.status 200 bd0)
  exact ⟨by decide, h.2.1, h.2.2.2.2.2.1⟩

/-- Claim C9: a user id present in both configured lists gets the manager
menu from every renderer, because manager membership is tested first; the
shipped template configuration itself places id 123456789 in both lists
(see the witness). -/
theorem overlap_resolves_to_manager_menu (cfg : Config) (user_id : Int)
    (hm : user_id ∈ cfg.manager_ids) (hs : user_id ∈ cfg.seller_ids) :
    get_main_menu_keyboard cfg user_id
      = [[Button.create_lead_wizard, Button.import_excel],
         [Button.manage_leads, Button.view_reports],
         [Button.record_payment, Button.add_reminder]] ∧
    cmd_start cfg user_id
      = StartAction.greetMenu Role.manager (get_main_menu_keyboard cfg user_id) ∧
    (common_navigate_home cfg user_id).1 = Role.manager := by
  refine ⟨?_, ?_, ?_⟩ <;>
    simp [get_main_menu_keyboard, cmd_start, common_navigate_home, hm]

/-- Claim C9 (witness): the template configuration's id 123456789 sits in
both lists and receives the manager menu. -/
theorem overlap_resolves_to_manager_menu_witness :
    (123456789 : Int) ∈ config_template.manager_ids ∧
    (123456789 : Int) ∈ config_template.seller_ids ∧
    (get_main_menu_keyboard config_template 123456789
        = [[Button.create_lead_wizard, Button.import_excel],
           [Button.manage_leads, Button.view_reports],
           [Button.record_payment, Button.add_reminder]] ∧
      cmd_start config_template 123456789
        = StartAction.greetMenu Role.manager (get_main_menu_keyboard config_template 123456789) ∧
      (common_navigate_home config_template 123456789).1 = Role.manager) :=
  ⟨by decide, by decide,
    overlap_resolves_to_manager_menu config_template 123456789 (by decide) (by decide)⟩

/-- Claim C3: for every bulk-notify request the endpoint answers HTTP 200
with one result per requested chat id, reporting exactly `M` failures
(`fail_count_from`, the number of failing individual sends) and `N - M`
successes, with `total_sent = N - M`; the handler never raises — every
exception class of an individual send is absorbed by `send_notification`
into a failure entry, so the embedded handler is total over all modelled
outcome environments. -/
theorem webhook_bulk_notify_partition (chat_ids : List Int) (message : PyStr)
    (env : Nat → SendOutcome) :
    (webhook_bulk_notify chat_ids message env).1 = 200 ∧
    (webhook_bulk_notify chat_ids message env).2.results.length = chat_ids.length ∧
    ((webhook_bulk_notify chat_ids message env).2.results.filter
        (fun r => !r.2.success)).length = fail_count_from env 0 chat_ids.length ∧
    (webhook_bulk_notify chat_ids message env).2.total_sent
        + fail_count_from env 0 chat_ids.length = chat_ids.length ∧
    (webhook_bulk_notify chat_ids message env).2.total_sent
        = chat_ids.length - fail_count_from env 0 chat_ids.length ∧
    (webhook_bulk_notify chat_ids message env).2.total_requested = chat_ids.length := by
  have hlen := bulk_send_loop_length message env chat_ids 0
  have hfail := bulk_send_loop_fail_count message env chat_ids 0
  have hsucc := bulk_send_loop_success_count message env chat_ids 0
  refine ⟨rfl, hlen, hfail, hsucc, ?_, rfl⟩
  have ht : (webhook_bulk_notify chat_ids message env).2.total_sent
      = ((bulk_send_loop message env 0 chat_ids).filter (fun r => r.2.success)).length := rfl
  omega

/-- The environment used by the receipt witness: a forum supergroup with
every Telegram call succeeding. -/
def receipt_env0 : ReceiptEnv :=
  ⟨some ⟨.supergroup, true⟩, true, .ok 1, .ok 1, .ok 1⟩

/-- A receipt request whose deposit (2) exceeds its deal price (1), with a
well-formed date. -/
def receipt_req0 : ReceiptReq :=
  ⟨1, 2, ['2', '0', '2', '4', '-', '0', '1', '-', '1', '5'], none,
   ['c'], ['p'], none, none, none, ['a'], -100, none, none⟩

/-- Claim C4: any receipt request with `price_deposit > price_deal` (within
the pydantic bounds `price_deal > 0`, `price_deposit ≥ 0`) is answered with
HTTP 400 and an empty Telegram-call trace — no metadata fetch, topic probe
or send happens; the date-format check that precedes it also answers 400
without any call, so the rejection comes before any Telegram traffic in
every case. -/
theorem create_receipt_rejects_excess_deposit (env : ReceiptEnv) (req : ReceiptReq)
    (hdeal : 0 < req.price_deal) (hdep : 0 ≤ req.price_deposit)
    (h : req.price_deal < req.price_deposit) :
    (create_receipt env req).1.statusCode = 400 ∧ (create_receipt env req).2 = [] := by
  unfold create_receipt
  by_cases hd : py_strptime_Ymd_ok req.date = false
  · simp [hd, HttpResp.statusCode]
  · simp [hd, gt_iff_lt, h, HttpResp.statusCode]

/-- Claim C4 (witness): the concrete over-deposited request is rejected with
status 400 and no Telegram call. -/
theorem create_receipt_rejects_excess_deposit_witness :
    receipt_req0.price_deal < receipt_req0.price_deposit ∧
    (create_receipt receipt_env0 receipt_req0).1.statusCode = 400 ∧
    (create_receipt receipt_env0 receipt_req0).2 = [] :=
  ⟨by norm_num [receipt_req0],
    create_receipt_rejects_excess_deposit receipt_env0 receipt_req0
      (by norm_num [receipt_req0]) (by norm_num [receipt_req0])
      (by norm_num [receipt_req0])⟩

/-- A canonical `+98` phone as concrete input. -/
def phone_ok : PyStr :=
  ['+', '9', '8', '9', '1', '2', '3', '4', '5', '6', '7', '8', '9']

/-- A six-digit code as concrete input. -/
def code6 : PyStr := ['1', '2', '3', '4', '5', '6']

/-- The conversation state right after a successful phone step. -/
def st_code : ConvState := ⟨some .waiting_for_code, some phone_ok⟩

/-- Claim C5 (counterexample): a backend 409 produces exactly the same
user-facing message as a 500 and as a network exception, in both the phone
flow and the code flow — there is no 409-specific message distinct from the
generic one. -/
theorem auth_409_message_not_distinct :
    (handle_phone_input 1 phone_ok ConvState.initial (.status 409 bd0)).reply
      = (handle_phone_input 1 phone_ok ConvState.initial (.status 500 bd0)).reply ∧
    (handle_phone_input 1 phone_ok ConvState.initial (.status 409 bd0)).reply
      = (handle_phone_input 1 phone_ok ConvState.initial .exn).reply ∧
    (handle_code_input config_template 1 code6 st_code (.status 409 bd0)).reply
      = (handle_code_input config_template 1 code6 st_code (.status 500 bd0)).reply ∧
    (handle_code_input config_template 1 code6 st_code (.status 409 bd0)).reply
      = (handle_code_input config_template 1 code6 st_code .exn).reply := by
  decide

/-- Claim C5 (amended): every failed backend call — status 409, any other
non-200 status, or a network exception — maps to one fixed generic message
per flow ("خطا در ارسال کد تایید" for the phone step, "کد تایید نامعتبر است"
for the code step); a 409 receives no distinct message. -/
theorem auth_409_maps_to_generic_message (cfg : Config) (chat_id : Int)
    (ptext ctext : PyStr) (st st2 : ConvState) (p : PyStr) (backend : HttpOutcome)
    (hfail : (http_post_result backend).success = false)
    (hv : validate_phone_number (py_strip ptext) = true)
    (hc : (py_isdigit (py_strip ctext) && (py_strip ctext).length == 6) = true)
    (hp : st2.phone = some p) :
    (handle_phone_input chat_id ptext st backend).reply = Reply.sms_send_error ∧
    (handle_code_input cfg chat_id ctext st2 backend).reply = Reply.invalid_code_error := by
  constructor
  · simp [handle_phone_input, hv, send_phone_to_api, hfail]
  · simp [handle_code_input, hc, hp, verify_code_with_api, hfail]

/-- Claim C5 (witness): the amended statement at a concrete 409 outcome. -/
theorem auth_409_maps_to_generic_message_witness :
    (http_post_result (HttpOutcome.status 409 bd0)).success = false ∧
    (handle_phone_input 1 phone_ok ConvState.initial (.status 409 bd0)).reply
      = Reply.sms_send_error ∧
    (handle_code_input config_template 1 code6 st_code (.status 409 bd0)).reply
      = Reply.invalid_code_error :=
  ⟨by decide,
    (auth_409_maps_to_generic_message config_template 1 phone_ok code6
      ConvState.initial st_code phone_ok (.status 409 bd0)
      (by decide) (by decide) (by decide) (by decide)).1,
    (auth_409_maps_to_generic_message config_template 1 phone_ok code6
      ConvState.initial st_code phone_ok (.status 409 bd0)
      (by decide) (by decide) (by decide) (by decide)).2⟩

/-- Claim C6: in the `waiting_for_code` state (reached with a phone stored),
a trimmed input that is not exactly a six-digit numeric string is answered
with the local re-prompt, no backend call and unchanged state; a six-digit
numeric input is forwarded to the backend verify endpoint with the stored
phone. -/
theorem code_input_local_validation (cfg : Config) (chat_id : Int)
    (text : PyStr) (st : ConvState) (p : PyStr) (backend : HttpOutcome)
    (htrim : py_strip text = text) (hp : st.phone = some p) :
    ((py_isdigit text && text.length == 6) = false →
      handle_code_input cfg chat_id text st backend
        = ⟨Reply.code_length_error, [], st, none⟩) ∧
    ((py_isdigit text && text.length == 6) = true →
      (handle_code_input cfg chat_id text st backend).calls
        = [BackendCall.verify_code chat_id p text]) := by
  constructor
  · intro h
    simp [handle_code_input, htrim, h]
  · intro h
    cases hsucc : (verify_code_with_api backend).success <;>
      simp [handle_code_input, htrim, h, hp, hsucc]

/-- Claim C6 (witness): the six-digit code 123456 is forwarded, and the
three-character input 123 is rejected locally. -/
theorem code_input_local_validation_witness :
    py_strip code6 = code6 ∧
    (py_isdigit code6 && code6.length == 6) = true ∧
    (handle_code_input config_template 1 code6 st_code (.status 200 bd0)).calls
      = [BackendCall.verify_code 1 phone_ok code6] ∧
    handle_code_input config_template 1 ['1', '2', '3'] st_code (.status 200 bd0)
      = ⟨Reply.code_length_error, [], st_code, none⟩ :=
  ⟨by decide, by decide,
    (code_input_local_validation config_template 1 code6 st_code phone_ok
      (.status 200 bd0) (by decide) (by decide)).2 (by decide),
    (code_input_local_validation config_template 1 ['1', '2', '3'] st_code phone_ok
      (.status 200 bd0) (by decide) (by decide)).1 (by decide)⟩

/-- Claim C7: when the backend verify call fails (409 or any other failure)
for a six-digit code with a phone stored in state, the handler leaves the
conversation state exactly as it was — still `waiting_for_code` with the
same stored phone — so the code can be retried without redoing the phone
step. -/
theorem code_verify_failure_keeps_state (cfg : Config) (chat_id : Int)
    (text : PyStr) (st : ConvState) (p : PyStr) (backend : HttpOutcome)
    (hc : (py_isdigit (py_strip text) && (py_strip text).length == 6) = true)
    (hp : st.phone = some p) (hf : st.fsm = some AuthSt.waiting_for_code)
    (hfail : (verify_code_with_api backend).success = false) :
    (handle_code_input cfg chat_id text st backend).state = st ∧
    (handle_code_input cfg chat_id text st backend).state.fsm
      = some AuthSt.waiting_for_code ∧
    (handle_code_input cfg chat_id text st backend).state.phone = some p := by
  have h1 : (handle_code_input cfg chat_id text st backend).state = st := by
    simp [handle_code_input, hc, hp, hfail]
  refine ⟨h1, ?_, ?_⟩
  · rw [h1]; exact hf
  · rw [h1]; exact hp

/-- Claim C7 (witness): a 409 on verify leaves the concrete state
untouched. -/
theorem code_verify_failure_keeps_state_witness :
    (verify_code_with_api (.status 409 bd0)).success = false ∧
    (handle_code_input config_template 1 code6 st_code (.status 409 bd0)).state = st_code ∧
    (handle_code_input config_template 1 code6 st_code (.status 409 bd0)).state.fsm
      = some AuthSt.waiting_for_code ∧
    (handle_code_input config_template 1 code6 st_code (.status 409 bd0)).state.phone
      = some phone_ok :=
  ⟨by decide,
    (code_verify_failure_keeps_state config_template 1 code6 st_code phone_ok
      (.status 409 bd0) (by decide) (by decide) (by decide) (by decide)).1,
    (code_verify_failure_keeps_state config_template 1 code6 st_code phone_ok
      (.status 409 bd0) (by decide) (by decide) (by decide) (by decide)).2.1,
    (code_verify_failure_keeps_state config_template 1 code6 st_code phone_ok
      (.status 409 bd0) (by decide) (by decide) (by decide) (by decide)).2.2⟩

/-- Claim C8: when the backend verify call succeeds for a six-digit code
with a phone stored in state, the handler clears the per-chat conversation
state back to the fresh idle state (`state.clear()`), so a later unrelated
message from that chat routes as if no flow were in progress. -/
theorem code_verify_success_clears_state (cfg : Config) (chat_id : Int)
    (text : PyStr) (st : ConvState) (p : PyStr) (backend : HttpOutcome)
    (hc : (py_isdigit (py_strip text) && (py_strip text).length == 6) = true)
    (hp : st.phone = some p)
    (hok : (verify_code_with_api backend).success = true) :
    (handle_code_input cfg chat_id text st backend).state = ConvState.initial ∧
    (handle_code_input cfg chat_id text st backend).state.fsm = none := by
  have h1 : (handle_code_input cfg chat_id text st backend).state = ConvState.initial := by
    simp [handle_code_input, hc, hp, hok]
  exact ⟨h1, by rw [h1]; rfl⟩

/-- Claim C8 (witness): a 200 on verify clears the concrete state. -/
theorem code_verify_success_clears_state_witness :
    (verify_code_with_api (.status 200 bd0)).success = true ∧
    (handle_code_input config_template 1 code6 st_code (.status 200 bd0)).state
      = ConvState.initial ∧
    (handle_code_input config_template 1 code6 st_code (.status 200 bd0)).state.fsm
      = none :=
  ⟨by decide,
    (code_verify_success_clears_state config_template 1 code6 st_code phone_ok
      (.status 200 bd0) (by decide) (by decide) (by decide)).1,
    (code_verify_success_clears_state config_template 1 code6 st_code phone_ok
      (.status 200 bd0) (by decide) (by decide) (by decide)).2⟩

/-- The fallback chain as wired in `main.py`: the Telegram-API routine falls
back to the aiogram routine. -/
def discovery_chain_api (envA : TgApiEnv) (envG : AiogramEnv) : List Topic :=
  discover_group_topics_with_telegram_api envA (discover_group_topics_aiogram envG)

/-- The fallback chain as wired in `main.py`: the Telethon routine falls
back to the Telegram-API routine. -/
def discovery_chain_telethon (envT : TelethonEnv) (envA : TgApiEnv)
    (envG : AiogramEnv) : List Topic :=
  discover_group_topics_with_telethon envT (discovery_chain_api envA envG)

/-- A Telethon run whose setup succeeds but whose inner scan aborts before
discovering anything (for example `get_entity` raising). -/
def telethon_env_bad : TelethonEnv := ⟨false, true, [], none⟩

/-- A Telegram-API run in which every probe comes back unavailable. -/
def tgapi_env0 : TgApiEnv := ⟨false, fun _ => ApiProbe.not_ok⟩

/-- An aiogram run in which every probe raises a non-breaking exception. -/
def aiogram_env0 : AiogramEnv := ⟨false, fun _ => AioProbe.exn⟩

/-- A Telethon run that completes its (empty) scan without exception. -/
def telethon_env_ok : TelethonEnv := ⟨false, false, [], none⟩

/-- Claim C10 (counterexample): when the Telethon routine's inner scan
aborts with an exception, its `except` handlers skip the General-topic
insertion, and the returned list — here the empty list — contains no entry
with topic_id 1; so not every returned topic list contains the General
topic. -/
theorem telethon_abort_drops_general_topic :
    ¬ ∃ t ∈ discovery_chain_telethon telethon_env_bad tgapi_env0 aiogram_env0,
      t.topic_id = 1 := by
  have h : discovery_chain_telethon telethon_env_bad tgapi_env0 aiogram_env0 = [] := rfl
  simp [h]

/-- Claim C10 (amended): every topic list returned by the discovery
routines has pairwise-distinct `topic_id` values; the Telegram-API and
aiogram routines (including their fallbacks) always contain a topic 1
entry; the Telethon routine is only guaranteed to contain topic 1 when its
setup fails (falling back) or its inner scan completes without exception —
an inner abort skips the General-topic insertion. -/
theorem topic_discovery_distinct_and_general (envT : TelethonEnv)
    (envA : TgApiEnv) (envG : AiogramEnv) :
    ((discover_group_topics_aiogram envG).map (fun t => t.topic_id)).Nodup ∧
    (∃ t ∈ discover_group_topics_aiogram envG, t.topic_id = 1) ∧
    ((discovery_chain_api envA envG).map (fun t => t.topic_id)).Nodup ∧
    (∃ t ∈ discovery_chain_api envA envG, t.topic_id = 1) ∧
    ((discovery_chain_telethon envT envA envG).map (fun t => t.topic_id)).Nodup ∧
    ((envT.setup_fail = true ∨ envT.inner_abort = false) →
      ∃ t ∈ discovery_chain_telethon envT envA envG, t.topic_id = 1) := by
  have hids : ((([] : List Topic).map (fun t => t.topic_id)) ++ common_topic_ids).Nodup := by
    decide
  -- aiogram
  have haioN : ((discover_group_topics_aiogram envG).map (fun t => t.topic_id)).Nodup := by
    unfold discover_group_topics_aiogram
    by_cases h : envG.outer_fail = true
    · simp [h]
    · simp only [h, if_false]
      exact add_general_topic_nodup _ _
        ((topics_probe_loop_sublist (aio_probe_act envG.probe) common_topic_ids []).nodup hids)
  have haio1 : ∃ t ∈ discover_group_topics_aiogram envG, t.topic_id = 1 := by
    unfold discover_group_topics_aiogram
    by_cases h : envG.outer_fail = true
    · exact ⟨⟨1, .general⟩, by simp [h], rfl⟩
    · simpa [h] using add_general_topic_has_one TName.general
        (topics_probe_loop (aio_probe_act envG.probe) common_topic_ids [])
  -- telegram api
  have hapiN : ((discovery_chain_api envA envG).map (fun t => t.topic_id)).Nodup := by
    unfold discovery_chain_api discover_group_topics_with_telegram_api
    by_cases h : envA.outer_fail = true
    · simpa [h] using haioN
    · simp only [h, if_false]
      exact add_general_topic_nodup _ _
        ((topics_probe_loop_sublist (api_probe_act envA.probe) common_topic_ids []).nodup hids)
  have hapi1 : ∃ t ∈ discovery_chain_api envA envG, t.topic_id = 1 := by
    unfold discovery_chain_api discover_group_topics_with_telegram_api
    by_cases h : envA.outer_fail = true
    · simpa [h] using haio1
    · simpa [h] using add_general_topic_has_one TName.general
        (topics_probe_loop (api_probe_act envA.probe) common_topic_ids [])
  -- telethon
  have htelN : ((discovery_chain_telethon envT envA envG).map (fun t => t.topic_id)).Nodup := by
    unfold discovery_chain_telethon discover_group_topics_with_telethon
    by_cases h : envT.setup_fail = true
    · simpa [h] using hapiN
    · simpa [h] using (dedup_topics_nodup _ []).1
  have htel1 : (envT.setup_fail = true ∨ envT.inner_abort = false) →
      ∃ t ∈ discovery_chain_telethon envT envA envG, t.topic_id = 1 := by
    intro hor
    unfold discovery_chain_telethon discover_group_topics_with_telethon
    by_cases h : envT.setup_fail = true
    · simpa [h] using hapi1
    · have hab : envT.inner_abort = false := by
        rcases hor with h1 | h2
        · exact absurd h1 h
        · exact h2
      simp only [h, if_false, hab]
      exact dedup_topics_mem _ [] 1
        (add_general_topic_has_one _ _) (by simp)
  exact ⟨haioN, haio1, hapiN, hapi1, htelN, htel1⟩

/-- Claim C10 (witness): the amended statement at concrete environments —
with a completed Telethon scan the returned list contains topic 1, and the
concrete aiogram run yields pairwise-distinct ids. -/
theorem topic_discovery_distinct_and_general_witness :
    (telethon_env_ok.setup_fail = true ∨ telethon_env_ok.inner_abort = false) ∧
    (∃ t ∈ discovery_chain_telethon telethon_env_ok tgapi_env0 aiogram_env0,
      t.topic_id = 1) ∧
    ((discover_group_topics_aiogram aiogram_env0).map (fun t => t.topic_id)).Nodup :=
  have h := topic_discovery_distinct_and_general telethon_env_ok tgapi_env0 aiogram_env0
  ⟨Or.inr rfl, h.2.2.2.2.2 (Or.inr rfl), h.1⟩
